import Mathlib

/-!
# Verification of the client-side upload validator and form guards

Shallow embedding of the two JavaScript sources of the repository
(`src/static/js/main.js` and `src/unnamed/part_000`, an alternative
version of the same script).  DOM effects are modelled as explicit
state passing over a record of the DOM pieces the handlers touch:
the `#file-info` panel, the value of the `#dataset` input, the error
panels shown so far and the loading overlays appended to the body.
-/

namespace SupplyChainUI

/-- A browser `File` as the handlers read it: `name` and `size`. -/
structure JFile where
  name : String
  size : Nat
  deriving DecidableEq, Repr

/-- The slice of DOM state the handlers mutate.
`fileInfo` is the innerHTML of the `#file-info` element (`none` when the
element is absent), `datasetValue` the value of the `#dataset` input,
`errorMsgs` the log of error messages displayed via `showError`, and
`overlays` the loading overlays appended to `document.body`. -/
structure Dom where
  fileInfo : Option String
  datasetValue : String
  errorMsgs : List String
  overlays : List String
  deriving DecidableEq, Repr

/-- A `<form>` element as the generic submit wiring of `part_000` reads
it: its `action` URL and its `data-loading-message` attribute. -/
structure JForm where
  action : String
  loadingMessage : Option String
  deriving DecidableEq, Repr

/-! ## String helpers (JS `toLowerCase`, `endsWith`, `includes`) -/

/-- ASCII lower-casing, as `String.prototype.toLowerCase` acts on the
ASCII range (the only range the validated names and literals use). -/
def lowerChar (c : Char) : Char :=
  if 'A' ≤ c ∧ c ≤ 'Z' then Char.ofNat (c.toNat + 32) else c

/-- `isPrefixB pat l` : does `l` start with `pat`? -/
def isPrefixB : List Char → List Char → Bool
  | [], _ => true
  | _ :: _, [] => false
  | a :: as, b :: bs => a == b && isPrefixB as bs

/-- `containsSub pat l` : does `pat` occur as a contiguous substring of `l`?
Models `String.prototype.includes`. -/
def containsSub (pat : List Char) : List Char → Bool
  | [] => isPrefixB pat []
  | c :: rest => isPrefixB pat (c :: rest) || containsSub pat rest

/-- `jsIncludes s pat` models `s.includes(pat)`. -/
def jsIncludes (s pat : String) : Bool :=
  containsSub pat.toList s.toList

/-- `l` ends with `pat` (list version of `String.prototype.endsWith`). -/
def endsWithB (l pat : List Char) : Bool :=
  isPrefixB pat.reverse l.reverse

/-- Models `fileName.toLowerCase().endsWith(".csv")`. -/
def endsWithCsvCI (name : String) : Bool :=
  endsWithB (name.toList.map lowerChar) ".csv".toList

/-! ## `formatFileSize` (identical in both sources)

```js
function formatFileSize(bytes) {
  if (bytes === 0) return "0 Bytes";
  const k = 1024;
  const sizes = ["Bytes", "KB", "MB", "GB"];
  const i = Math.floor(Math.log(bytes) / Math.log(k));
  return parseFloat((bytes / Math.pow(k, i)).toFixed(2)) + " " + sizes[i];
}
```

The embedding uses exact arithmetic in place of IEEE doubles:
`Math.floor(Math.log(bytes)/Math.log(1024))` is the integer binary-unit
index `Nat.log 1024 bytes`, and `parseFloat(x.toFixed(2))` is rounding
half-up to a whole number of hundredths followed by printing with
trailing zeros stripped (for a byte count below 2^53, `bytes / 1024^i`
is exact in a double, and no tie can occur in `toFixed(2)` on a dyadic
rational, so half-up agrees with the JS result). -/

/-- `sizes[i]`, with JS out-of-bounds indexing producing `undefined`,
which string concatenation renders as `"undefined"`. -/
def sizeUnit (i : Nat) : String :=
  List.getD ["Bytes", "KB", "MB", "GB"] i "undefined"

/-- Print a number of hundredths the way
`parseFloat(x.toFixed(2)).toString()` does: at most two decimal places,
trailing zeros (and a trailing dot) stripped. -/
def hundredthsToString (h : Nat) : String :=
  let ip := h / 100
  let fp := h % 100
  if fp == 0 then toString ip
  else if fp % 10 == 0 then toString ip ++ "." ++ toString (fp / 10)
  else if fp < 10 then toString ip ++ ".0" ++ toString fp
  else toString ip ++ "." ++ toString fp

/-- The embedded `formatFileSize`. -/
def formatFileSize (bytes : Nat) : String :=
  if bytes = 0 then "0 Bytes"
  else
    let i := Nat.log 1024 bytes
    let p := 1024 ^ i
    let h := (200 * bytes + p) / (2 * p)
    hundredthsToString h ++ " " ++ sizeUnit i

/-! ## `showError` / `showLoading` messages -/

/-- The innerHTML template `main.js` writes into `#file-info`. -/
def mainFileInfoHTML (fileName : String) (fileSize : Nat) : String :=
  "\n          <i class=\"fas fa-file-csv me-2\"></i>\n          Selected file: <strong>"
    ++ fileName ++ "</strong> (" ++ formatFileSize fileSize ++ ")\n        "

/-- The innerHTML template `part_000` writes into `#file-info`. -/
def part0FileInfoHTML (fileName : String) (fileSize : Nat) : String :=
  "\n          <strong>File:</strong> " ++ fileName
    ++ " <br>\n          <strong>Size:</strong> " ++ formatFileSize fileSize
    ++ "\n        "

/-! ## The `#dataset` change handler of `main.js` (lines 17-45)

```js
const fileName = e.target.files[0]?.name;
const fileSize = e.target.files[0]?.size;
if (fileName) {
  let fileInfoElement = document.getElementById("file-info");
  if (!fileInfoElement) { ...create, append... }
  fileInfoElement.innerHTML = `...fileName...formattedSize...`;
  if (!fileName.toLowerCase().endsWith(".csv")) {
    showError("Please select a CSV file.");
    fileInput.value = "";
    if (fileInfoElement) fileInfoElement.remove();
  }
}
```
`files0` is `e.target.files[0]` (`none` when no file is carried).
`if (fileName)` is JS truthiness: it also fails on the empty string. -/
def mainFileChange (files0 : Option JFile) (d : Dom) : Dom :=
  match files0 with
  | none => d
  | some f =>
    if f.name = "" then d
    else
      let d1 : Dom := { d with fileInfo := some (mainFileInfoHTML f.name f.size) }
      if endsWithCsvCI f.name then d1
      else
        { d1 with
          errorMsgs := d1.errorMsgs ++ ["Please select a CSV file."]
          datasetValue := ""
          fileInfo := none }

/-! ## The `#dataset` change handler of `part_000` (lines 62-88)

```js
const fileName = e.target.files[0]?.name || "No file selected";
const fileSize = e.target.files[0]?.size || 0;
const fileInfo = document.getElementById("file-info");
if (fileInfo) { fileInfo.innerHTML = `...fileName...formatFileSize(fileSize)...`; }
if (fileSize > 0 && !fileName.toLowerCase().endsWith(".csv")) {
  showError("Please select a CSV file");
  fileUpload.value = "";
  if (fileInfo) fileInfo.innerHTML = "";
}
if (fileSize > 16 * 1024 * 1024) {
  showError("File size exceeds 16MB limit");
  fileUpload.value = "";
  if (fileInfo) fileInfo.innerHTML = "";
}
```
Note: this version only updates a pre-existing `#file-info` element and
never creates one, and its extension check is guarded by `fileSize > 0`. -/
def part0DisplayName (files0 : Option JFile) : String :=
  match files0 with
  | none => "No file selected"
  | some f => if f.name = "" then "No file selected" else f.name

def part0Size (files0 : Option JFile) : Nat :=
  match files0 with
  | none => 0
  | some f => f.size

def part0FileChange (files0 : Option JFile) (d : Dom) : Dom :=
  let fileName := part0DisplayName files0
  let fileSize := part0Size files0
  let d1 : Dom :=
    match d.fileInfo with
    | none => d
    | some _ => { d with fileInfo := some (part0FileInfoHTML fileName fileSize) }
  let d2 : Dom :=
    if 0 < fileSize ∧ ¬ endsWithCsvCI fileName then
      { d1 with
        errorMsgs := d1.errorMsgs ++ ["Please select a CSV file"]
        datasetValue := ""
        fileInfo := d1.fileInfo.map (fun _ => "") }
    else d1
  if 16 * 1024 * 1024 < fileSize then
    { d2 with
      errorMsgs := d2.errorMsgs ++ ["File size exceeds 16MB limit"]
      datasetValue := ""
      fileInfo := d2.fileInfo.map (fun _ => "") }
  else d2

/-! ## JS `parseInt` with an undefined radix

`parseInt(str)`: skip leading whitespace, read an optional sign, switch
to hexadecimal on a `0x`/`0X` prefix (otherwise base 10), then take the
longest run of digits of the base; `NaN` when that run is empty. -/

/-- The characters `StrWhiteSpace` skips (ASCII whitespace and NBSP). -/
def jsWhitespace (c : Char) : Bool :=
  c == ' ' || c == '\t' || c == '\n' || c == '\r'
    || c.toNat == 11 || c.toNat == 12 || c.toNat == 160

/-- Decimal digit value. -/
def decVal (c : Char) : Option Nat :=
  if '0' ≤ c ∧ c ≤ '9' then some (c.toNat - 48) else none

/-- Hexadecimal digit value. -/
def hexVal (c : Char) : Option Nat :=
  if '0' ≤ c ∧ c ≤ '9' then some (c.toNat - 48)
  else if 'a' ≤ c ∧ c ≤ 'f' then some (c.toNat - 87)
  else if 'A' ≤ c ∧ c ≤ 'F' then some (c.toNat - 55)
  else none

/-- Digit value in the given base (10 or 16 here). -/
def digitVal (base : Nat) (c : Char) : Option Nat :=
  if base == 16 then hexVal c else decVal c

/-- `jsParseInt s` models `parseInt(s)`: `none` is `NaN`. -/
def jsParseInt (s : String) : Option Int :=
  let cs := s.toList.dropWhile jsWhitespace
  let signAndRest : Int × List Char :=
    match cs with
    | '-' :: r => (-1, r)
    | '+' :: r => (1, r)
    | _ => (1, cs)
  let baseAndRest : Nat × List Char :=
    match signAndRest.2 with
    | '0' :: 'x' :: r => (16, r)
    | '0' :: 'X' :: r => (16, r)
    | r => (10, r)
  let base := baseAndRest.1
  let ds := baseAndRest.2.takeWhile (fun c => (digitVal base c).isSome)
  if ds.isEmpty then none
  else
    some (signAndRest.1 *
      (ds.foldl (fun acc c => acc * base + (digitVal base c).getD 0) 0 : Nat))

/-! ## The `#forecast-form` submit handler of `main.js` (lines 51-70)

```js
if (productSelect.value === "") { e.preventDefault(); showError("Please select a product."); return; }
const days = parseInt(daysInput.value);
if (isNaN(days) || days < 1 || days > 90) {
  e.preventDefault(); showError("Please enter a valid number of days (1-90)."); return;
}
showLoading("Generating forecast...");
```
The returned `Bool` is whether `e.preventDefault()` was called
(the submission was blocked). -/
def forecastFormSubmit (productValue daysValue : String) (d : Dom) : Dom × Bool :=
  if productValue = "" then
    ({ d with errorMsgs := d.errorMsgs ++ ["Please select a product."] }, true)
  else
    match jsParseInt daysValue with
    | none =>
      ({ d with errorMsgs := d.errorMsgs ++ ["Please enter a valid number of days (1-90)."] }, true)
    | some days =>
      if days < 1 ∨ 90 < days then
        ({ d with errorMsgs := d.errorMsgs ++ ["Please enter a valid number of days (1-90)."] }, true)
      else
        ({ d with overlays := d.overlays ++ ["Generating forecast..."] }, false)

/-! ## The `#upload-form` submit handler of `main.js` (lines 76-85)

```js
if (!fileInput.files[0]) { e.preventDefault(); showError("Please select a file to upload."); return; }
showLoading("Uploading and processing data...");
```
`files0` is `fileInput.files[0]`; the `Bool` is whether the submission
was blocked. -/
def uploadFormSubmit (files0 : Option JFile) (d : Dom) : Dom × Bool :=
  match files0 with
  | none =>
    ({ d with errorMsgs := d.errorMsgs ++ ["Please select a file to upload."] }, true)
  | some _ =>
    ({ d with overlays := d.overlays ++ ["Uploading and processing data..."] }, false)

/-! ## The generic form submit wiring of `part_000` (lines 92-104)

```js
forms.forEach(form => {
  form.addEventListener("submit", function() {
    if (form.action.includes("clear_dataset")) { return true; }
    const loadingMessage = form.dataset.loadingMessage || "Processing request...";
    showLoading(loadingMessage);
    return true;
  });
});
```
The handler never calls `preventDefault`, so native submission always
proceeds; it only decides whether a loading overlay is appended. -/
def loadingMsgOf (form : JForm) : String :=
  match form.loadingMessage with
  | none => "Processing request..."
  | some m => if m = "" then "Processing request..." else m

def part0FormSubmit (form : JForm) (d : Dom) : Dom :=
  if jsIncludes form.action "clear_dataset" then d
  else { d with overlays := d.overlays ++ [loadingMsgOf form] }

/-! ## `showError` of `main.js` (lines 97-120), at DOM level

```js
let errorAlert = document.getElementById("error-alert");
if (!errorAlert) {
  errorAlert = document.createElement("div"); errorAlert.id = "error-alert";
  ...
  document.querySelector(".card-body").prepend(errorAlert);
}
errorAlert.innerHTML = `...message...`;
```
The container (`.card-body`) is a list of `(id, innerHTML)` elements.
Both branches end by overwriting the innerHTML of the panel with the
message template (which replaces the create-branch close button too). -/
def mainErrorHTML (message : String) : String :=
  "\n      <i class=\"fas fa-exclamation-triangle me-2\"></i>\n      <strong>Error:</strong> "
    ++ message
    ++ "\n      <button type=\"button\" class=\"btn-close\" data-bs-dismiss=\"alert\" aria-label=\"Close\"></button>\n    "

def showErrorMain (message : String) (doc : List (String × String)) :
    List (String × String) :=
  if doc.any (fun el => el.1 == "error-alert") then
    doc.map (fun el =>
      if el.1 == "error-alert" then (el.1, mainErrorHTML message) else el)
  else
    ("error-alert", mainErrorHTML message) :: doc

/-- Number of elements with id `error-alert` in the container. -/
def countErrorAlert (doc : List (String × String)) : Nat :=
  (doc.filter (fun el => el.1 == "error-alert")).length

/-- Run a sequence of `showError` calls, oldest first. -/
def runShowErrorMain : List String → List (String × String) → List (String × String)
  | [], doc => doc
  | m :: ms, doc => runShowErrorMain ms (showErrorMain m doc)

/-! ## `showError` of `part_000` (lines 16-34), with its timer

```js
const errorContainer = document.createElement("div");
...
container.prepend(errorContainer);
setTimeout(() => { const bsAlert = new bootstrap.Alert(errorContainer); bsAlert.close(); }, 10000);
```
Each call creates a fresh panel and schedules a single `setTimeout`
closing exactly that panel 10,000 ms later.  Panels get consecutive
ids; a timer records the panel it closes and its absolute fire time. -/
structure AlertTimer where
  fireAt : Nat
  panelId : Nat
  deriving DecidableEq, Repr

/-- Panels carry `(id, createdAt)`; `timers` are the pending
`setTimeout` callbacks.  Nothing in the source ever cancels a timer. -/
structure AlertState where
  nextId : Nat
  panels : List (Nat × Nat)
  timers : List AlertTimer
  deriving DecidableEq, Repr

def AlertState.initial : AlertState := ⟨0, [], []⟩

/-- One `showError` call of `part_000`, occurring at absolute time `t`. -/
def showErrorPart0At (t : Nat) (s : AlertState) : AlertState :=
  { nextId := s.nextId + 1
    panels := (s.nextId, t) :: s.panels
    timers := ⟨t + 10000, s.nextId⟩ :: s.timers }

/-- Run `showError` at each time in `ts`, oldest first. -/
def runShowErrorPart0 : List Nat → AlertState → AlertState
  | [], s => s
  | t :: ts, s => runShowErrorPart0 ts (showErrorPart0At t s)

/-- The day-count rejection condition of the forecast guard:
`isNaN(days) || days < 1 || days > 90` for `days = parseInt(value)`. -/
def daysInvalidB (value : String) : Bool :=
  match jsParseInt value with
  | none => true
  | some v => decide (v < 1) || decide (90 < v)

/-- Invariant of the `part_000` `showError` timer model: panel ids are
below `nextId`, and each panel has exactly one pending timer, firing
10,000 ms after the creation of the panel. -/
def AlertInv (s : AlertState) : Prop :=
  (∀ pr ∈ s.panels, pr.1 < s.nextId ∧
    s.timers.filter (fun tm => tm.panelId == pr.1) = [⟨pr.2 + 10000, pr.1⟩]) ∧
  (∀ tm ∈ s.timers, tm.panelId < s.nextId)

/-! ## Helper lemmas -/

theorem endsWithCsvCI_empty : endsWithCsvCI "" = false := by decide

theorem ne_empty_of_endsWithCsvCI (n : String) (h : endsWithCsvCI n = true) :
    n ≠ "" := by
  intro he
  rw [he] at h
  exact absurd h (by decide)

theorem endsWithCsvCI_noFile : endsWithCsvCI "No file selected" = false := by
  decide

theorem part0DisplayName_not_csv (f : JFile)
    (h : endsWithCsvCI f.name = false) :
    endsWithCsvCI (part0DisplayName (some f)) = false := by
  by_cases he : f.name = ""
  · simpa [part0DisplayName, he] using endsWithCsvCI_noFile
  · simpa [part0DisplayName, he] using h

theorem part0DisplayName_of_ne_empty (f : JFile) (h : f.name ≠ "") :
    part0DisplayName (some f) = f.name := by
  simp [part0DisplayName, h]

/-! ## C8 — upload form guard with no file selected -/

/-- C8: submitting the upload form while no file is selected in the
dataset input is blocked: the handler calls `preventDefault`, shows an
error panel, and appends no loading overlay. -/
theorem c8_upload_no_file_blocked (d : Dom) :
    (uploadFormSubmit none d).2 = true ∧
    (uploadFormSubmit none d).1.errorMsgs
      = d.errorMsgs ++ ["Please select a file to upload."] ∧
    (uploadFormSubmit none d).1.overlays = d.overlays :=
  ⟨rfl, rfl, rfl⟩

/-! ## C9 — a file of exactly 16 MiB passes the size check -/

/-- C9: a selected CSV file of exactly 16,777,216 bytes passes the size
check of the `part_000` change handler: no error is shown and the input
value is untouched, because the comparison `fileSize > 16 * 1024 * 1024`
is strict. -/
theorem c9_exact_16mib_passes (f : JFile) (d : Dom)
    (hsize : f.size = 16 * 1024 * 1024)
    (hcsv : endsWithCsvCI f.name = true) :
    (part0FileChange (some f) d).errorMsgs = d.errorMsgs ∧
    (part0FileChange (some f) d).datasetValue = d.datasetValue := by
  have hne := ne_empty_of_endsWithCsvCI f.name hcsv
  have hdn := part0DisplayName_of_ne_empty f hne
  cases hfi : d.fileInfo <;>
    simp [part0FileChange, hfi, hdn, hcsv, part0Size, hsize]

theorem c9_exact_16mib_passes_witness :
    (part0FileChange (some ⟨"ok.csv", 16 * 1024 * 1024⟩)
        ⟨some "x", "v", [], []⟩).errorMsgs = [] ∧
    (part0FileChange (some ⟨"ok.csv", 16 * 1024 * 1024⟩)
        ⟨some "x", "v", [], []⟩).datasetValue = "v" :=
  c9_exact_16mib_passes ⟨"ok.csv", 16 * 1024 * 1024⟩ ⟨some "x", "v", [], []⟩
    rfl (by decide)

/-! ## C1 — rejection of files not ending in ".csv" -/

/-- C1 counterexample: a zero-byte file named "data.txt", whose name does
not end with ".csv", leaves the `part_000` change handler inert: no error
panel is shown and the input value is not cleared, because the extension
check is guarded by `fileSize > 0`. -/
theorem c1_counterexample :
    endsWithCsvCI "data.txt" = false ∧
    part0FileChange (some ⟨"data.txt", 0⟩) ⟨none, "orig", [], []⟩
      = ⟨none, "orig", [], []⟩ :=
  ⟨by decide, by decide⟩

/-- C1 (amended): a file whose name does not end in ".csv"
case-insensitively is rejected — error panel shown, input value cleared —
by the `main.js` handler provided its name is non-empty, and by the
`part_000` handler provided its size is positive. -/
theorem c1_amended_non_csv_rejected :
    (∀ (f : JFile) (d : Dom), f.name ≠ "" → endsWithCsvCI f.name = false →
      (mainFileChange (some f) d).datasetValue = "" ∧
      (mainFileChange (some f) d).errorMsgs
        = d.errorMsgs ++ ["Please select a CSV file."]) ∧
    (∀ (f : JFile) (d : Dom), 0 < f.size → endsWithCsvCI f.name = false →
      (part0FileChange (some f) d).datasetValue = "" ∧
      d.errorMsgs.length < (part0FileChange (some f) d).errorMsgs.length) := by
  constructor
  · intro f d hne hcsv
    simp [mainFileChange, hne, hcsv]
  · intro f d hpos hcsv
    have hdn := part0DisplayName_not_csv f hcsv
    cases hfi : d.fileInfo <;>
      · simp only [part0FileChange, hfi, part0Size, hdn]
        split <;> simp [hpos]

theorem c1_amended_non_csv_rejected_witness :
    ((mainFileChange (some ⟨"data.txt", 5⟩) ⟨none, "v", [], []⟩).datasetValue
        = "" ∧
      (mainFileChange (some ⟨"data.txt", 5⟩) ⟨none, "v", [], []⟩).errorMsgs
        = [] ++ ["Please select a CSV file."]) ∧
    ((part0FileChange (some ⟨"data.txt", 5⟩) ⟨none, "v", [], []⟩).datasetValue
        = "" ∧
      ([] : List String).length
        < (part0FileChange (some ⟨"data.txt", 5⟩) ⟨none, "v", [], []⟩).errorMsgs.length) :=
  ⟨c1_amended_non_csv_rejected.1 ⟨"data.txt", 5⟩ ⟨none, "v", [], []⟩
      (by decide) (by decide),
    c1_amended_non_csv_rejected.2 ⟨"data.txt", 5⟩ ⟨none, "v", [], []⟩
      (by decide) (by decide)⟩

/-! ## Substring helper lemmas -/

theorem toList_append (a b : String) : (a ++ b).toList = a.toList ++ b.toList :=
  rfl

theorem isPrefixB_append (l r : List Char) : isPrefixB l (l ++ r) = true := by
  induction l with
  | nil => rfl
  | cons a as ih => simp [isPrefixB, ih]

theorem containsSub_of_isPrefixB (pat l : List Char)
    (h : isPrefixB pat l = true) : containsSub pat l = true := by
  cases l with
  | nil => exact h
  | cons c rest => simp [containsSub, h]

theorem containsSub_append (pre pat suf : List Char) :
    containsSub pat (pre ++ (pat ++ suf)) = true := by
  induction pre with
  | nil => exact containsSub_of_isPrefixB _ _ (isPrefixB_append pat suf)
  | cons c cs ih => simp [containsSub, ih]

theorem jsIncludes_middle (a b c : String) : jsIncludes (a ++ b ++ c) b = true := by
  unfold jsIncludes
  have h : (a ++ b ++ c).toList = a.toList ++ (b.toList ++ c.toList) := by
    simp [toList_append]
  rw [h]
  exact containsSub_append _ _ _

/-! ## C2 — rejection of oversize files -/

/-- C2 counterexample: the `main.js` change handler performs no size
check at all: a 16,777,217-byte file named "big.csv" — larger than the
16,777,216-byte limit — is accepted by it: no error panel is shown and
the input value is not cleared. -/
theorem c2_counterexample :
    16 * 1024 * 1024 < (16777217 : Nat) ∧
    (mainFileChange (some ⟨"big.csv", 16777217⟩)
        ⟨none, "orig", [], []⟩).errorMsgs = [] ∧
    (mainFileChange (some ⟨"big.csv", 16777217⟩)
        ⟨none, "orig", [], []⟩).datasetValue = "orig" :=
  ⟨by norm_num, by decide, by decide⟩

/-- C2 (amended): the `part_000` change handler rejects every file
exceeding 16,777,216 bytes — error panel shown, input value cleared —
regardless of extension; the `main.js` change handler performs no size
check: it never rejects a file whose name ends with ".csv", whatever the
size. -/
theorem c2_amended_size_limit :
    (∀ (f : JFile) (d : Dom), 16 * 1024 * 1024 < f.size →
      (part0FileChange (some f) d).datasetValue = "" ∧
      d.errorMsgs.length < (part0FileChange (some f) d).errorMsgs.length) ∧
    (∀ (f : JFile) (d : Dom), endsWithCsvCI f.name = true →
      (mainFileChange (some f) d).errorMsgs = d.errorMsgs ∧
      (mainFileChange (some f) d).datasetValue = d.datasetValue) := by
  constructor
  · intro f d hsz
    cases hfi : d.fileInfo <;>
      · simp only [part0FileChange, hfi, part0Size]
        rw [if_pos hsz]
        refine ⟨rfl, ?_⟩
        split <;> simp
  · intro f d hcsv
    have hne := ne_empty_of_endsWithCsvCI f.name hcsv
    simp [mainFileChange, hne, hcsv]

theorem c2_amended_size_limit_witness :
    ((part0FileChange (some ⟨"big.txt", 16777217⟩)
        ⟨none, "v", [], []⟩).datasetValue = "" ∧
      ([] : List String).length
        < (part0FileChange (some ⟨"big.txt", 16777217⟩)
            ⟨none, "v", [], []⟩).errorMsgs.length) ∧
    ((mainFileChange (some ⟨"big.csv", 99999999⟩)
        ⟨none, "v", [], []⟩).errorMsgs = [] ∧
      (mainFileChange (some ⟨"big.csv", 99999999⟩)
        ⟨none, "v", [], []⟩).datasetValue = "v") :=
  ⟨c2_amended_size_limit.1 ⟨"big.txt", 16777217⟩ ⟨none, "v", [], []⟩
      (by norm_num),
    c2_amended_size_limit.2 ⟨"big.csv", 99999999⟩ ⟨none, "v", [], []⟩
      (by decide)⟩

/-! ## C6 — the file-info status panel -/

/-- C6 counterexample: with no `#file-info` element present, the
`part_000` change handler does not create one: after selecting the
accepted file "data.csv" (100 bytes) no status panel exists, although
the file was not rejected. -/
theorem c6_counterexample :
    (part0FileChange (some ⟨"data.csv", 100⟩)
        ⟨none, "orig", [], []⟩).fileInfo = none ∧
    (part0FileChange (some ⟨"data.csv", 100⟩)
        ⟨none, "orig", [], []⟩).errorMsgs = [] :=
  ⟨by decide, by decide⟩

/-- C6 (amended): the `main.js` change handler updates — creating it if
absent — the `#file-info` panel, which then shows the file name and the
formatted size (for an accepted file); the `part_000` change handler
only rewrites an already-existing panel and never creates one: when
`#file-info` is absent it stays absent, and when present it is updated
with the name and formatted size of an accepted file. -/
theorem c6_amended_file_info_panel :
    (∀ (f : JFile) (d : Dom), endsWithCsvCI f.name = true →
      (mainFileChange (some f) d).fileInfo
        = some (mainFileInfoHTML f.name f.size)) ∧
    (∀ (n : String) (s : Nat),
      jsIncludes (mainFileInfoHTML n s) n = true ∧
      jsIncludes (mainFileInfoHTML n s) (formatFileSize s) = true) ∧
    (∀ (f : JFile) (d : Dom), d.fileInfo = none →
      (part0FileChange (some f) d).fileInfo = none) ∧
    (∀ (f : JFile) (d : Dom) (h : String), d.fileInfo = some h →
      endsWithCsvCI f.name = true → f.size ≤ 16 * 1024 * 1024 →
      (part0FileChange (some f) d).fileInfo
        = some (part0FileInfoHTML f.name f.size)) := by
  refine ⟨?_, ?_, ?_, ?_⟩
  · intro f d hcsv
    have hne := ne_empty_of_endsWithCsvCI f.name hcsv
    simp [mainFileChange, hne, hcsv]
  · intro n s
    constructor
    · rw [mainFileInfoHTML, String.append_assoc, String.append_assoc]
      exact jsIncludes_middle _ _ _
    · rw [mainFileInfoHTML]
      exact jsIncludes_middle _ _ _
  · intro f d hfi
    simp only [part0FileChange, hfi]
    split <;> split <;> simp [hfi]
  · intro f d h hfi hcsv hsize
    have hne := ne_empty_of_endsWithCsvCI f.name hcsv
    have hdn := part0DisplayName_of_ne_empty f hne
    have h2 : ¬ (0 < f.size ∧ ¬ endsWithCsvCI f.name = true) := by simp [hcsv]
    have h3 : ¬ (16 * 1024 * 1024 < f.size) := by omega
    simp only [part0FileChange, hfi, hdn, part0Size]
    rw [if_neg h2, if_neg h3]

theorem c6_amended_file_info_panel_witness :
    ((mainFileChange (some ⟨"a.csv", 3⟩) ⟨none, "v", [], []⟩).fileInfo
        = some (mainFileInfoHTML "a.csv" 3)) ∧
    (jsIncludes (mainFileInfoHTML "n" 5) "n" = true ∧
      jsIncludes (mainFileInfoHTML "n" 5) (formatFileSize 5) = true) ∧
    ((part0FileChange (some ⟨"x.txt", 9⟩) ⟨none, "v", [], []⟩).fileInfo
        = none) ∧
    ((part0FileChange (some ⟨"a.csv", 3⟩) ⟨some "h", "v", [], []⟩).fileInfo
        = some (part0FileInfoHTML "a.csv" 3)) :=
  ⟨c6_amended_file_info_panel.1 ⟨"a.csv", 3⟩ ⟨none, "v", [], []⟩ (by decide),
    c6_amended_file_info_panel.2.1 "n" 5,
    c6_amended_file_info_panel.2.2.1 ⟨"x.txt", 9⟩ ⟨none, "v", [], []⟩ rfl,
    c6_amended_file_info_panel.2.2.2 ⟨"a.csv", 3⟩ ⟨some "h", "v", [], []⟩ "h"
      rfl (by decide) (by norm_num)⟩

/-! ## C3 — forecast form guard -/

/-- C3: the forecast-form submit handler blocks the submission exactly
when the product value is the empty string or `parseInt` of the days
value is NaN, below 1, or above 90; every blocked submission shows an
error panel and every allowed one does not; horizon "0", "91" and a
non-numeric value are blocked (as is an empty product), while "1" and
"90" are allowed. -/
theorem c3_forecast_form_guard :
    (∀ (p ds : String) (d : Dom),
      (forecastFormSubmit p ds d).2 = ((p == "") || daysInvalidB ds)) ∧
    (∀ (p ds : String) (d : Dom), (forecastFormSubmit p ds d).2 = true →
      (forecastFormSubmit p ds d).1.errorMsgs.length
        = d.errorMsgs.length + 1) ∧
    (∀ (p ds : String) (d : Dom), (forecastFormSubmit p ds d).2 = false →
      (forecastFormSubmit p ds d).1.errorMsgs = d.errorMsgs) ∧
    (∀ d : Dom, (forecastFormSubmit "prod" "0" d).2 = true) ∧
    (∀ d : Dom, (forecastFormSubmit "prod" "91" d).2 = true) ∧
    (∀ d : Dom, (forecastFormSubmit "prod" "abc" d).2 = true) ∧
    (∀ d : Dom, (forecastFormSubmit "" "50" d).2 = true) ∧
    (∀ d : Dom, (forecastFormSubmit "prod" "1" d).2 = false) ∧
    (∀ d : Dom, (forecastFormSubmit "prod" "90" d).2 = false) := by
  refine ⟨?_, ?_, ?_, fun d => rfl, fun d => rfl, fun d => rfl, fun d => rfl,
    fun d => rfl, fun d => rfl⟩
  · intro p ds d
    by_cases hp : p = ""
    · subst hp; simp [forecastFormSubmit]
    · cases hjs : jsParseInt ds with
      | none => simp [forecastFormSubmit, daysInvalidB, hp, hjs]
      | some v =>
        by_cases hv : v < 1 ∨ 90 < v
        · simp [forecastFormSubmit, daysInvalidB, hp, hjs, hv]
        · simp [forecastFormSubmit, daysInvalidB, hp, hjs, hv]
          omega
  · intro p ds d h
    by_cases hp : p = ""
    · subst hp; simp [forecastFormSubmit]
    · cases hjs : jsParseInt ds with
      | none => simp [forecastFormSubmit, hp, hjs]
      | some v =>
        by_cases hv : v < 1 ∨ 90 < v
        · simp [forecastFormSubmit, hp, hjs, hv]
        · simp [forecastFormSubmit, hp, hjs, hv] at h
  · intro p ds d h
    by_cases hp : p = ""
    · subst hp; simp [forecastFormSubmit] at h
    · cases hjs : jsParseInt ds with
      | none => simp [forecastFormSubmit, hp, hjs] at h
      | some v =>
        by_cases hv : v < 1 ∨ 90 < v
        · simp [forecastFormSubmit, hp, hjs, hv] at h
        · simp [forecastFormSubmit, hp, hjs, hv]

theorem c3_forecast_form_guard_witness :
    ((forecastFormSubmit "" "50" ⟨none, "v", [], []⟩).2
        = (("" == "") || daysInvalidB "50")) ∧
    ((forecastFormSubmit "" "50" ⟨none, "v", [], []⟩).2 = true ∧
      (forecastFormSubmit "" "50" ⟨none, "v", [], []⟩).1.errorMsgs.length
        = ([] : List String).length + 1) ∧
    ((forecastFormSubmit "p" "45" ⟨none, "v", [], []⟩).2 = false ∧
      (forecastFormSubmit "p" "45" ⟨none, "v", [], []⟩).1.errorMsgs = []) :=
  ⟨c3_forecast_form_guard.1 "" "50" ⟨none, "v", [], []⟩,
    ⟨by decide,
      c3_forecast_form_guard.2.1 "" "50" ⟨none, "v", [], []⟩ (by decide)⟩,
    ⟨by decide,
      c3_forecast_form_guard.2.2.1 "p" "45" ⟨none, "v", [], []⟩ (by decide)⟩⟩

/-! ## C4 — loading overlay on form submission -/

/-- C4: in `part_000`, the generic submit wiring appends a loading
overlay to the body for every form whose action does not contain
"clear_dataset", and leaves the DOM untouched for the dataset-clear
form; in `main.js`, the upload and forecast submit handlers append an
overlay whenever the native submission is allowed to proceed. -/
theorem c4_loading_overlay :
    (∀ (form : JForm) (d : Dom),
      jsIncludes form.action "clear_dataset" = true →
      part0FormSubmit form d = d) ∧
    (∀ (form : JForm) (d : Dom),
      jsIncludes form.action "clear_dataset" = false →
      (part0FormSubmit form d).overlays = d.overlays ++ [loadingMsgOf form]) ∧
    (∀ (f : JFile) (d : Dom),
      (uploadFormSubmit (some f) d).1.overlays
        = d.overlays ++ ["Uploading and processing data..."]) ∧
    (∀ (p ds : String) (d : Dom), (forecastFormSubmit p ds d).2 = false →
      (forecastFormSubmit p ds d).1.overlays
        = d.overlays ++ ["Generating forecast..."]) := by
  refine ⟨?_, ?_, fun f d => rfl, ?_⟩
  · intro form d h
    simp [part0FormSubmit, h]
  · intro form d h
    simp [part0FormSubmit, h]
  · intro p ds d h
    by_cases hp : p = ""
    · subst hp; simp [forecastFormSubmit] at h
    · cases hjs : jsParseInt ds with
      | none => simp [forecastFormSubmit, hp, hjs] at h
      | some v =>
        by_cases hv : v < 1 ∨ 90 < v
        · simp [forecastFormSubmit, hp, hjs, hv] at h
        · simp [forecastFormSubmit, hp, hjs, hv]

theorem c4_loading_overlay_witness :
    (part0FormSubmit ⟨"/app/clear_dataset", none⟩ ⟨none, "v", [], []⟩
        = ⟨none, "v", [], []⟩) ∧
    ((part0FormSubmit ⟨"/app/upload", none⟩ ⟨none, "v", [], []⟩).overlays
        = [] ++ [loadingMsgOf ⟨"/app/upload", none⟩]) ∧
    ((forecastFormSubmit "p" "30" ⟨none, "v", [], []⟩).2 = false ∧
      (forecastFormSubmit "p" "30" ⟨none, "v", [], []⟩).1.overlays
        = [] ++ ["Generating forecast..."]) :=
  ⟨c4_loading_overlay.1 ⟨"/app/clear_dataset", none⟩ ⟨none, "v", [], []⟩
      (by decide),
    c4_loading_overlay.2.1 ⟨"/app/upload", none⟩ ⟨none, "v", [], []⟩
      (by decide),
    ⟨by decide,
      c4_loading_overlay.2.2.2 "p" "30" ⟨none, "v", [], []⟩ (by decide)⟩⟩

/-! ## C5 — formatFileSize -/

theorem formatFileSize_pos (b : Nat) (hb : b ≠ 0) :
    formatFileSize b
      = hundredthsToString
          ((200 * b + 1024 ^ Nat.log 1024 b) / (2 * 1024 ^ Nat.log 1024 b))
        ++ " " ++ sizeUnit (Nat.log 1024 b) := by
  simp [formatFileSize, hb]

/-- Rounding half-up to hundredths moves a nonnegative quotient by at
most 1/200. -/
theorem round_hundredths_close (b p : Nat) (hp : 0 < p) :
    |(((200 * b + p) / (2 * p) : Nat) : ℚ) / 100 - (b : ℚ) / ((p : Nat) : ℚ)|
      ≤ 1 / 200 := by
  have hp0 : ((p : Nat) : ℚ) ≠ 0 := Nat.cast_ne_zero.mpr hp.ne'
  set x : ℚ := (((200 * b + p : Nat) : ℚ)) / (((2 * p : Nat) : ℚ)) with hx
  have hfl : (((200 * b + p) / (2 * p) : Nat) : ℚ) = (⌊x⌋₊ : ℚ) := by
    rw [hx, Nat.floor_div_nat, Nat.floor_natCast]
  have hxval : x = (100 * (b : ℚ)) / ((p : Nat) : ℚ) + 1 / 2 := by
    rw [hx]; push_cast; field_simp; ring
  have h1 : (⌊x⌋₊ : ℚ) ≤ x := Nat.floor_le (by rw [hxval]; positivity)
  have h2 : x < ⌊x⌋₊ + 1 := Nat.lt_floor_add_one x
  rw [hfl]
  have hb : (b : ℚ) / ((p : Nat) : ℚ) = ((100 * (b : ℚ)) / ((p : Nat) : ℚ)) / 100 := by
    field_simp
    ring
  rw [hb, abs_le, hxval] at *
  constructor <;> linarith [h1, h2]

theorem natLog1024_1024 : Nat.log 1024 1024 = 1 := by
  rw [Nat.log_eq_one_iff]
  norm_num

theorem natLog1024_1048576 : Nat.log 1024 1048576 = 2 := by
  have h : (1048576 : Nat) = 1024 ^ 2 := by norm_num
  rw [h, Nat.log_pow (by norm_num)]

/-- C5: `formatFileSize` yields "0 Bytes" for 0, "1 KB" for 1024 and
"1 MB" for 1,048,576; for any positive byte count it prints the count
scaled by the binary unit `1024 ^ (Nat.log 1024 bytes)`, rounded to a
whole number of hundredths (at most two decimal places, within 1/200 of
the exact quotient), followed by the unit name, and for any count below
1024⁴ the unit index stays within the Bytes/KB/MB/GB table. -/
theorem c5_formatFileSize_values :
    formatFileSize 0 = "0 Bytes" ∧
    formatFileSize 1024 = "1 KB" ∧
    formatFileSize 1048576 = "1 MB" ∧
    (∀ b : Nat, 0 < b →
      formatFileSize b
        = hundredthsToString
            ((200 * b + 1024 ^ Nat.log 1024 b) / (2 * 1024 ^ Nat.log 1024 b))
          ++ " " ++ sizeUnit (Nat.log 1024 b) ∧
      |(((200 * b + 1024 ^ Nat.log 1024 b)
            / (2 * 1024 ^ Nat.log 1024 b) : Nat) : ℚ) / 100
          - (b : ℚ) / ((1024 ^ Nat.log 1024 b : Nat) : ℚ)| ≤ 1 / 200) ∧
    (∀ b : Nat, 0 < b → b < 1024 ^ 4 → Nat.log 1024 b ≤ 3) := by
  refine ⟨rfl, ?_, ?_, ?_, ?_⟩
  · rw [formatFileSize_pos 1024 (by norm_num), natLog1024_1024]
    norm_num
    rfl
  · rw [formatFileSize_pos 1048576 (by norm_num), natLog1024_1048576]
    norm_num
    rfl
  · intro b hb
    refine ⟨formatFileSize_pos b hb.ne', ?_⟩
    exact round_hundredths_close b (1024 ^ Nat.log 1024 b)
      (pow_pos (by norm_num) _)
  · intro b hb hlt
    have := Nat.log_lt_of_lt_pow hb.ne' hlt
    omega

theorem c5_formatFileSize_values_witness :
    (formatFileSize 1536
        = hundredthsToString
            ((200 * 1536 + 1024 ^ Nat.log 1024 1536)
              / (2 * 1024 ^ Nat.log 1024 1536))
          ++ " " ++ sizeUnit (Nat.log 1024 1536) ∧
      |(((200 * 1536 + 1024 ^ Nat.log 1024 1536)
            / (2 * 1024 ^ Nat.log 1024 1536) : Nat) : ℚ) / 100
          - ((1536 : Nat) : ℚ) / ((1024 ^ Nat.log 1024 1536 : Nat) : ℚ)|
        ≤ 1 / 200) ∧
    Nat.log 1024 1536 ≤ 3 :=
  ⟨c5_formatFileSize_values.2.2.2.1 1536 (by norm_num),
    c5_formatFileSize_values.2.2.2.2 1536 (by norm_num) (by norm_num)⟩

/-! ## C7 — auto-dismiss timer of the `part_000` showError -/

theorem alertInv_initial : AlertInv AlertState.initial := by
  constructor <;> simp [AlertState.initial]

theorem alertInv_step (t : Nat) (s : AlertState) (h : AlertInv s) :
    AlertInv (showErrorPart0At t s) := by
  obtain ⟨hp, ht⟩ := h
  constructor
  · rintro ⟨pid, pt⟩ hmem
    simp only [showErrorPart0At, List.mem_cons, Prod.mk.injEq] at hmem
    rcases hmem with ⟨hid, hts⟩ | hold
    · subst hid
      subst hts
      have hnone : s.timers.filter (fun tm => tm.panelId == s.nextId) = [] := by
        rw [List.filter_eq_nil_iff]
        intro tm htm hpred
        have hlt := ht tm htm
        rw [beq_iff_eq] at hpred
        omega
      refine ⟨Nat.lt_succ_self _, ?_⟩
      simp only [showErrorPart0At]
      simp [List.filter_cons, hnone]
    · have h2 := hp (pid, pt) hold
      have hlt : pid < s.nextId := h2.1
      have hfil : s.timers.filter (fun tm => tm.panelId == pid)
          = [⟨pt + 10000, pid⟩] := h2.2
      refine ⟨Nat.lt_succ_of_lt hlt, ?_⟩
      simp only [showErrorPart0At]
      have hne : (s.nextId == pid) = false := by
        rw [beq_eq_false_iff_ne]
        omega
      simp [List.filter_cons, hne, hfil]
  · intro tm htm
    simp only [showErrorPart0At, List.mem_cons] at htm
    rcases htm with heq | hold
    · subst heq
      exact Nat.lt_succ_self _
    · exact Nat.lt_succ_of_lt (ht tm hold)

theorem alertInv_run (ts : List Nat) (s : AlertState) (h : AlertInv s) :
    AlertInv (runShowErrorPart0 ts s) := by
  induction ts generalizing s with
  | nil => exact h
  | cons t rest ih => exact ih _ (alertInv_step t s h)

/-- C7: for any sequence of `showError` calls in `part_000`, each panel
created has exactly one pending `setTimeout` close, scheduled precisely
10,000 milliseconds after the creation of that panel; nothing in the
model (or the source) ever cancels a timer. -/
theorem c7_error_panel_auto_dismiss (ts : List Nat) (pr : Nat × Nat)
    (hmem : pr ∈ (runShowErrorPart0 ts AlertState.initial).panels) :
    (runShowErrorPart0 ts AlertState.initial).timers.filter
        (fun tm => tm.panelId == pr.1)
      = [⟨pr.2 + 10000, pr.1⟩] :=
  ((alertInv_run ts AlertState.initial alertInv_initial).1 pr hmem).2

theorem c7_error_panel_auto_dismiss_witness :
    ((1, 100) ∈ (runShowErrorPart0 [5, 100] AlertState.initial).panels) ∧
    (runShowErrorPart0 [5, 100] AlertState.initial).timers.filter
        (fun tm => tm.panelId == 1)
      = [⟨10100, 1⟩] :=
  ⟨by decide,
    c7_error_panel_auto_dismiss [5, 100] (1, 100) (by decide)⟩

/-! ## C10 — a single `#error-alert` element in `main.js` -/

theorem countErrorAlert_map_replace (x : String)
    (doc : List (String × String)) :
    countErrorAlert (doc.map (fun el =>
        if el.1 == "error-alert" then (el.1, x) else el))
      = countErrorAlert doc := by
  induction doc with
  | nil => rfl
  | cons e rest ih =>
    by_cases h : e.1 = "error-alert" <;>
      simp [countErrorAlert, List.filter_cons, h] at ih ⊢ <;>
        simpa [h] using ih

theorem countErrorAlert_step (m : String) (doc : List (String × String))
    (h : countErrorAlert doc ≤ 1) :
    countErrorAlert (showErrorMain m doc) ≤ 1 := by
  by_cases hany : doc.any (fun el => el.1 == "error-alert") = true
  · rw [showErrorMain, if_pos hany, countErrorAlert_map_replace]
    exact h
  · rw [showErrorMain, if_neg hany]
    have h0 : doc.filter (fun el => el.1 == "error-alert") = [] := by
      rw [List.filter_eq_nil_iff]
      intro a ha hpred
      exact hany (List.any_eq_true.mpr ⟨a, ha, hpred⟩)
    simp [countErrorAlert, List.filter_cons, h0]

/-- C10: starting from a container without an `#error-alert` element,
any sequence of `main.js` `showError` calls leaves at most one element
with id `error-alert` in the document: when the panel already exists, a
call rewrites its message in place and adds no element. -/
theorem c10_single_error_alert :
    (∀ (msgs : List String) (doc : List (String × String)),
      countErrorAlert doc ≤ 1 →
      countErrorAlert (runShowErrorMain msgs doc) ≤ 1) ∧
    (∀ (m : String) (doc : List (String × String)),
      doc.any (fun el => el.1 == "error-alert") = true →
      (showErrorMain m doc).length = doc.length) := by
  constructor
  · intro msgs
    induction msgs with
    | nil => intro doc h; exact h
    | cons m ms ih =>
      intro doc h
      exact ih _ (countErrorAlert_step m doc h)
  · intro m doc h
    rw [showErrorMain, if_pos h, List.length_map]

theorem c10_single_error_alert_witness :
    (countErrorAlert [] ≤ 1 ∧
      countErrorAlert (runShowErrorMain ["a", "b", "c"] []) ≤ 1) ∧
    ([("card-body", "x"), ("error-alert", "y")].any
        (fun el => el.1 == "error-alert") = true ∧
      (showErrorMain "m" [("card-body", "x"), ("error-alert", "y")]).length
        = [("card-body", "x"), ("error-alert", "y")].length) :=
  ⟨⟨by decide, c10_single_error_alert.1 ["a", "b", "c"] [] (by decide)⟩,
    ⟨by decide,
      c10_single_error_alert.2 "m" [("card-body", "x"), ("error-alert", "y")]
        (by decide)⟩⟩

end SupplyChainUI
